import Mathlib

/-!
Verification development for the Janus admin/monitor client
(`src/janus_client/admin_monitor.py`) against its specification.

Messages are JSON-like documents; the structural subset matcher
(`is_subset`, from `message_transaction.py`, which is not part of the
provided sources) is modelled from the specification, section 4.1.
Everything in `admin_monitor.py` is embedded directly from that source.
-/

set_option autoImplicit false

/-- A JSON-like value: the generic tagged-value tree of the data model
(string/number/bool/null/array/object variants). Numbers are modelled as
integers, which covers every payload the client builds. -/
inductive JValue where
  | null
  | bool (b : Bool)
  | num (n : Int)
  | str (s : String)
  | arr (elems : List JValue)
  | obj (fields : List (String × JValue))

/-- A JSON object body: an insertion-ordered association list, as a Python
dict with string keys. -/
abbrev JDict := List (String × JValue)

/-- First value stored under key `k`, scanning in insertion order
(Python dict lookup). -/
def lookupField (k : String) : JDict → Option JValue
  | [] => none
  | (k1, v1) :: rest => if k1 == k then some v1 else lookupField k rest

/-- Strict structural equality on scalar values: type and value must agree
(specification section 4.1, final clause). -/
def scalarEq : JValue → JValue → Bool
  | JValue.null, JValue.null => true
  | JValue.bool a, JValue.bool b => a == b
  | JValue.num a, JValue.num b => a == b
  | JValue.str a, JValue.str b => a == b
  | _, _ => false

mutual

/-- Modelled from the spec: the per-key value test of the structural subset
matcher of `message_transaction.py` (not under the provided sources),
following section 4.1: a `None`/null pattern value only requires the key to
exist; a nested document recurses; a nested sequence requires a sequence at
least as long, tested element-wise over the pattern positions; any other
pattern value requires strict structural equality. -/
def matchValue : JValue → JValue → Bool
  | _, JValue.null => true
  | JValue.obj cf, JValue.obj pf => matchFields cf pf
  | _, JValue.obj _ => false
  | JValue.arr cs, JValue.arr ps => matchElems cs ps
  | _, JValue.arr _ => false
  | cv, pv => scalarEq cv pv

/-- Modelled from the spec: the object part of the structural subset
matcher. Every key of the pattern must exist in the candidate and its value
must pass `matchValue`; keys of the candidate not mentioned by the pattern
are ignored. -/
def matchFields : JDict → JDict → Bool
  | _, [] => true
  | cf, (k, pv) :: rest =>
    (match lookupField k cf with
     | some cv => matchValue cv pv
     | none => false)
    && matchFields cf rest

/-- Modelled from the spec: the sequence part of the structural subset
matcher, element-wise over the positions present in the pattern; trailing
candidate elements are ignored, a too-short candidate fails. -/
def matchElems : List JValue → List JValue → Bool
  | _, [] => true
  | [], _ :: _ => false
  | c :: cs, p :: ps => matchValue c p && matchElems cs ps

end

/-- Modelled from the spec: `is_subset(message, pattern)` of
`message_transaction.py` — the structural subset test
`matches(candidate, pattern)` of specification section 4.1 applied to two
documents. -/
def is_subset (candidate pattern : JDict) : Bool :=
  matchFields candidate pattern

/-- Python `d[k] = v` on an insertion-ordered dict: replace the value in
place when `k` is already a key, otherwise append the pair at the end. -/
def dictSet : JDict → String → JValue → JDict
  | [], k, v => [(k, v)]
  | (k1, v1) :: rest, k, v =>
    if k1 == k then (k1, v) :: rest else (k1, v1) :: dictSet rest k v

/-- The generic error pattern hard-coded inside `send_wrapper`
(admin_monitor.py lines 72 to 78). -/
def error_pattern : JDict :=
  [("janus", JValue.str "error"),
   ("error", JValue.obj [("code", JValue.null), ("reason", JValue.null)])]

/-- The closure `function_matcher` built by `send_wrapper`
(admin_monitor.py lines 69 to 79): an inbound message is accepted when it is
a structural superset of the caller-supplied matcher pattern or of the
generic error pattern. -/
def function_matcher (matcher : JDict) (message : JDict) : Bool :=
  is_subset message matcher || is_subset message error_pattern

/-- The error kinds `MessageTransaction.get` exposes to its caller
(specification section 7). -/
inductive GetError where
  | timeout
  | transportClosed

/-- Does time `t` fall within an optional deadline (`none` means no
deadline)? -/
def withinOpt : Option Nat → Nat → Bool
  | none, _ => true
  | some limit, t => decide (t ≤ limit)

/-- Has the transport (closed at the optional time `closedAt`, `none`
meaning it never closes) already closed strictly before time `t`? -/
def closedBefore : Option Nat → Nat → Bool
  | none, _ => false
  | some c, t => decide (c < t)

/-- Modelled from the spec: `MessageTransaction.get(matcher, timeout)` of
`message_transaction.py` (not under the provided sources), sections 4.2 and
7. The inbound messages for this transaction are a time-stamped list in
arrival order; the transport may close at `closedAt`. The call returns the
first arriving message accepted by `matcher`, fails with `timeout` when the
deadline passes first, fails with `transportClosed` when the transport
closes first, and — with no deadline, no close and no qualifying arrival —
waits forever, modelled as `none`. -/
def transactionGet (matcher : JDict → Bool) (timeout closedAt : Option Nat)
    (arrivals : List (Nat × JDict)) : Option (Except GetError JDict) :=
  match arrivals.find? (fun p => matcher p.2 && !closedBefore closedAt p.1) with
  | some p =>
    if withinOpt timeout p.1 then some (Except.ok p.2)
    else some (Except.error GetError.timeout)
  | none =>
    match timeout, closedAt with
    | some limit, some c =>
      if c ≤ limit then some (Except.error GetError.transportClosed)
      else some (Except.error GetError.timeout)
    | some _, none => some (Except.error GetError.timeout)
    | none, some _ => some (Except.error GetError.transportClosed)
    | none, none => none

/-- The message-building phase of `send_wrapper` (admin_monitor.py lines 81
to 86), returning the pair (full_message handed to the transport, the
content of the caller-supplied `message` dict after the call). When `jsep`
is empty no copy is made — `full_message` is the very same dict object as
`message` — so the later in-place `full_message["admin_secret"] = ...`
store is visible through the caller-supplied dict. When `jsep` is non-empty
`{**message, "jsep": jsep}` builds a fresh dict and the caller-supplied
dict is left untouched. -/
def send_wrapper_messages (message jsep : JDict) (authorize : Bool)
    (admin_secret : String) : JDict × JDict :=
  if jsep.isEmpty then
    if authorize then
      let full := dictSet message "admin_secret" (JValue.str admin_secret)
      (full, full)
    else (message, message)
  else
    let full := dictSet message "jsep" (JValue.obj jsep)
    if authorize then
      (dictSet full "admin_secret" (JValue.str admin_secret), message)
    else (full, message)

/-- The default of the `timeout` parameter of `send_wrapper`
(admin_monitor.py line 66). -/
def send_wrapper_default_timeout : Option Nat := some 15

/-- One run of `send_wrapper` (admin_monitor.py lines 61 to 97):
`sent` is the full message handed to `self.__transport.send`,
`messageAfter` the content of the caller-supplied `message` dict after the
call, `outcome` the result of the awaited `get` (`none` while it is still
pending), and `doneCalled` whether `message_transaction.done()` was
executed. The statement `await message_transaction.done()` is not guarded
by try/finally: it runs only when `get` returns normally, so an exception
from `get` propagates past it. -/
structure SendWrapperRun where
  sent : JDict
  messageAfter : JDict
  outcome : Option (Except GetError JDict)
  doneCalled : Bool

/-- Embedding of `send_wrapper` (admin_monitor.py lines 61 to 97) over the
spec-modelled transaction: build the full message, send it, await `get`
with `function_matcher` and the forwarded `timeout`, and call `done()` only
after `get` returns normally. -/
def send_wrapper (admin_secret : String) (message jsep matcher : JDict)
    (authorize : Bool) (timeout closedAt : Option Nat)
    (arrivals : List (Nat × JDict)) : SendWrapperRun :=
  let msgs := send_wrapper_messages message jsep authorize admin_secret
  let got := transactionGet (function_matcher matcher) timeout closedAt arrivals
  ⟨msgs.1, msgs.2, got,
    match got with
    | some (Except.ok _) => true
    | _ => false⟩

/-- The outbound ping message (admin_monitor.py line 102). -/
def pingMessage : JDict := [("janus", JValue.str "ping")]

/-- The matcher pattern of `ping` (admin_monitor.py line 103). -/
def pongPattern : JDict := [("janus", JValue.str "pong")]

/-- Embedding of `ping` (admin_monitor.py lines 99 to 105): `send_wrapper`
with message `{"janus": "ping"}`, matcher `{"janus": "pong"}`, the default
`jsep` and `timeout`, and `authorize` false. -/
def ping (admin_secret : String) (closedAt : Option Nat)
    (arrivals : List (Nat × JDict)) : SendWrapperRun :=
  send_wrapper admin_secret pingMessage [] pongPattern false
    send_wrapper_default_timeout closedAt arrivals

/-- The Python exceptions the token methods can raise. -/
inductive PyError where
  | attributeError (name : String)
  | keyError (key : String)
  | typeError

/-- Every attribute name defined on `JanusAdminMonitorClient` instances:
the methods of the class body (admin_monitor.py lines 31 to 288) and the
two name-mangled instance attributes assigned in `__init__` (the class-body
annotations on lines 32 to 33 mangle the same way). The base class `object`
contributes only dunder attributes, none of them named `send`. -/
def janusAdminMonitorClientAttributes : List String :=
  ["_JanusAdminMonitorClient__transport",
   "_JanusAdminMonitorClient__admin_secret",
   "__init__", "__str__", "connect", "disconnect",
   "send_wrapper", "ping", "info", "loops_info", "get_settings",
   "set_session_timeout", "set_log_level", "set_log_timestamps",
   "set_log_colors", "set_locking_debug", "set_refcount_debug",
   "set_libnice_debug", "set_min_nack_queue", "set_no_media_timer",
   "add_token", "allow_token", "disallow_token", "list_tokens",
   "remove_token"]

/-- Evaluation of the expression `self.send` appearing in the token
methods (admin_monitor.py lines 256, 266, 276, 280 and 288): Python
resolves the attribute before any call happens, and
`janusAdminMonitorClientAttributes` contains no entry named `send`, so the
lookup raises `AttributeError` and the payload argument is never
consumed. -/
def selfSend (payload : JDict) : Except PyError JDict :=
  Except.error (PyError.attributeError "send")

/-- The token value a call of `add_token` uses: Python evaluated the
default expression `uuid.uuid4().hex` exactly once, when the `def`
statement ran, reading the generator state of that moment (`defState`);
an explicit argument overrides it. -/
def add_token_token (uuidHex : Nat → String) (defState : Nat)
    (token : Option String) : String :=
  token.getD (uuidHex defState)

/-- The payload built by `add_token` (admin_monitor.py lines 253 to 255):
`{"janus": "add_token", "token": token}`, with `plugins` stored only when
the list is non-empty. -/
def add_token_payload (tokenValue : String) (plugins : List JValue) : JDict :=
  let payload : JDict :=
    [("janus", JValue.str "add_token"), ("token", JValue.str tokenValue)]
  if plugins.isEmpty then payload
  else dictSet payload "plugins" (JValue.arr plugins)

/-- The payload one invocation of `add_token` builds. `callState` is the
uuid-generator state at the moment of the call: a per-call evaluation of
the default would read it, but Python resolved the default from `defState`
once, when the `def` statement ran, so the build never consults
`callState`. -/
def add_token_sent (uuidHex : Nat → String) (defState callState : Nat)
    (token : Option String) (plugins : List JValue) : JDict :=
  add_token_payload (add_token_token uuidHex defState token) plugins

/-- Embedding of `add_token` (admin_monitor.py lines 252 to 256): build
the payload, then hand it to `self.send`, which does not exist. -/
def add_token (uuidHex : Nat → String) (defState callState : Nat)
    (token : Option String) (plugins : List JValue) : Except PyError JDict :=
  selfSend (add_token_sent uuidHex defState callState token plugins)

/-- Embedding of `allow_token` (admin_monitor.py lines 258 to 266). -/
def allow_token (token : String) (plugins : List JValue) : Except PyError JDict :=
  selfSend
    [("janus", JValue.str "allow_token"), ("token", JValue.str token),
     ("plugins", JValue.arr plugins)]

/-- Embedding of `disallow_token` (admin_monitor.py lines 268 to 276). -/
def disallow_token (token : String) (plugins : List JValue) :
    Except PyError JDict :=
  selfSend
    [("janus", JValue.str "disallow_token"), ("token", JValue.str token),
     ("plugins", JValue.arr plugins)]

/-- Embedding of `list_tokens` (admin_monitor.py lines 278 to 281):
`self.send` the payload, then subscript the result with `"data"` and
`"tokens"`. -/
def list_tokens : Except PyError JValue :=
  match selfSend [("janus", JValue.str "list_tokens")] with
  | Except.error e => Except.error e
  | Except.ok result =>
    match lookupField "data" result with
    | none => Except.error (PyError.keyError "data")
    | some d =>
      match d with
      | JValue.obj fields =>
        match lookupField "tokens" fields with
        | none => Except.error (PyError.keyError "tokens")
        | some t => Except.ok t
      | _ => Except.error PyError.typeError

/-- Embedding of `remove_token` (admin_monitor.py lines 283 to 288). -/
def remove_token (token : String) : Except PyError JDict :=
  selfSend [("janus", JValue.str "remove_token"), ("token", JValue.str token)]

/-- The text `__str__` produces around its recursive interpolation of
`{self}` (admin_monitor.py line 51). -/
def admin_str_format (base_url tail : String) : String :=
  "Admin/Monitor (" ++ base_url ++ ") " ++ tail

/-- Evaluation of `str(client)` with a budget of `fuel` nested `__str__`
frames (admin_monitor.py lines 50 to 51): the f-string interpolates
`{self}`, which re-invokes `__str__` on the same object, so producing a
value at one level needs a value from the next; `none` means no value was
produced within the budget. -/
def admin_client_str (base_url : String) : Nat → Option String
  | 0 => none
  | n + 1 =>
    match admin_client_str base_url n with
    | none => none
    | some s => some (admin_str_format base_url s)

/-- A well-formed pong reply carrying a transaction id, used as a concrete
inbound message. -/
def pongExample : JDict :=
  [("janus", JValue.str "pong"), ("transaction", JValue.str "t1")]

/-- A concrete inbound error message of the generic error shape, with a
numeric code and a reason string. -/
def errExample : JDict :=
  [("janus", JValue.str "error"),
   ("error", JValue.obj [("code", JValue.num 490), ("reason", JValue.str "boom")])]

/-- Any message returned normally by the modelled `get` was accepted by the
matcher the call was given. -/
theorem transactionGet_ok_matches (matcher : JDict → Bool)
    (timeout closedAt : Option Nat) (arrivals : List (Nat × JDict)) (m : JDict)
    (h : transactionGet matcher timeout closedAt arrivals = some (Except.ok m)) :
    matcher m = true := by
  unfold transactionGet at h
  split at h
  · rename_i p hf
    have hp := List.find?_some hf
    have hmatch : matcher p.2 = true := by
      simp only [Bool.and_eq_true] at hp
      exact hp.1
    split at h
    · simp at h
      exact h ▸ hmatch
    · simp at h
  · split at h
    · split at h <;> simp at h
    · simp at h
    · simp at h
    · simp at h

example : is_subset [("a", JValue.num 1)] [("a", JValue.null)] = true := by rfl

example :
    is_subset [("a", JValue.obj [("b", JValue.num 1), ("c", JValue.num 2)])]
      [("a", JValue.obj [("b", JValue.num 1)])] = true := by rfl

example :
    is_subset [("a", JValue.obj [("b", JValue.num 1)])]
      [("a", JValue.obj [("b", JValue.num 1), ("c", JValue.num 2)])] = false := by rfl

/-- Claim C1: the claim states that `send_wrapper` invokes `done()` on the
transaction on every exit path, including the path where `get` fails with a
Timeout. The code has no try/finally around the `get` await, so on the run
where no qualifying message ever arrives the `get` fails with Timeout and
`done()` is never executed: the transaction stays registered. -/
theorem send_wrapper_timeout_skips_done :
    (send_wrapper "s" pingMessage [] pongPattern true (some 15) none []).outcome
      = some (Except.error GetError.timeout)
    ∧ (send_wrapper "s" pingMessage [] pongPattern true (some 15) none []).doneCalled
      = false :=
  ⟨rfl, rfl⟩

/-- Claim C2: the claim states that the caller-supplied message dict is
unchanged after `send_wrapper` for every combination of `jsep` and
`authorize`. With the defaults (`jsep` empty, `authorize` true) the code
aliases `full_message` to the caller-supplied dict and stores
`admin_secret` into it in place: after the call the dict `{"janus":
"ping"}` has gained the key `admin_secret`. -/
theorem send_wrapper_mutates_caller_message :
    lookupField "admin_secret" pingMessage = none
    ∧ (send_wrapper "s" pingMessage [] [] true (some 15) none []).messageAfter
      = [("janus", JValue.str "ping"), ("admin_secret", JValue.str "s")]
    ∧ lookupField "admin_secret"
        ((send_wrapper "s" pingMessage [] [] true (some 15) none []).messageAfter)
      = some (JValue.str "s") :=
  ⟨rfl, rfl, rfl⟩

/-- Claim C3: the matcher closure built by `send_wrapper` accepts an
inbound message exactly when the message is a structural superset of the
caller-supplied pattern or of the generic error pattern. -/
theorem function_matcher_accepts_iff :
    ∀ (matcher m : JDict),
      function_matcher matcher m = true
      ↔ (is_subset m matcher = true ∨ is_subset m error_pattern = true) := by
  intro matcher m
  simp [function_matcher]

/-- Claim C4: the class defines no attribute named `send`, so every token
method fails with `AttributeError` and returns no result. -/
theorem token_methods_attribute_error :
    janusAdminMonitorClientAttributes.contains "send" = false
    ∧ (∀ (uuidHex : Nat → String) (defState callState : Nat)
        (token : Option String) (plugins : List JValue),
        add_token uuidHex defState callState token plugins
          = Except.error (PyError.attributeError "send"))
    ∧ (∀ (token : String) (plugins : List JValue),
        allow_token token plugins = Except.error (PyError.attributeError "send"))
    ∧ (∀ (token : String) (plugins : List JValue),
        disallow_token token plugins = Except.error (PyError.attributeError "send"))
    ∧ list_tokens = Except.error (PyError.attributeError "send")
    ∧ (∀ token : String,
        remove_token token = Except.error (PyError.attributeError "send")) := by
  refine ⟨by decide, ?_, ?_, ?_, rfl, ?_⟩
  · intro uuidHex defState callState token plugins
    rfl
  · intro token plugins
    rfl
  · intro token plugins
    rfl
  · intro token
    rfl

/-- Claim C6: the empty pattern is an identity for the structural subset
test: it matches every message. -/
theorem is_subset_empty_pattern : ∀ m : JDict, is_subset m [] = true :=
  fun _ => rfl

/-- Claim C9: with the `token` argument omitted, every call of `add_token`
places the same token string in its payload — the definition-time value
`uuidHex defState` — independently of the uuid-generator state at call
time and of the `plugins` argument, because Python evaluated the default
expression once, at function definition time. -/
theorem add_token_default_token_fixed :
    ∀ (uuidHex : Nat → String) (defState s1 s2 : Nat)
      (pl1 pl2 : List JValue),
      lookupField "token" (add_token_sent uuidHex defState s1 none pl1)
        = some (JValue.str (uuidHex defState))
      ∧ lookupField "token" (add_token_sent uuidHex defState s2 none pl2)
        = some (JValue.str (uuidHex defState)) := by
  intro uuidHex defState s1 s2 pl1 pl2
  constructor <;> · cases pl1 <;> cases pl2 <;> rfl

/-- Claim C10: `str` of a client never returns normally: the format string
of `__str__` interpolates the object itself, so producing a value at one
recursion level requires a value from the next, and no budget of nested
frames suffices; moreover no string is a fixed point of one formatting
step. -/
theorem admin_client_str_no_value :
    (∀ (base_url : String) (n : Nat), admin_client_str base_url n = none)
    ∧ (∀ (base_url tail : String), admin_str_format base_url tail ≠ tail) := by
  constructor
  · intro base_url n
    induction n with
    | zero => rfl
    | succ n ih => simp [admin_client_str, ih]
  · intro base_url tail h
    have hlen := congrArg String.length h
    simp only [admin_str_format, String.length_append] at hlen
    have h1 : "Admin/Monitor (".length = 15 := rfl
    have h2 : ") ".length = 2 := rfl
    omega

/-- Witness for claim C10 at a concrete base url, budget and tail. -/
theorem admin_client_str_no_value_witness :
    admin_client_str "ws:server" 5 = none
    ∧ admin_str_format "ws:server" "x" ≠ "x" :=
  ⟨admin_client_str_no_value.1 "ws:server" 5,
   admin_client_str_no_value.2 "ws:server" "x"⟩

/-- Claim C5: the modelled `get` fails with Timeout when no qualifying
message arrives within the deadline; a `none` timeout never produces a
Timeout failure (the wait is bounded only by the transport lifetime); the
only outcomes are a message, Timeout, transport-closed, or still waiting;
and `send_wrapper` hands its own `timeout` argument — whose default is
15 — unchanged to `get`, whose outcome it returns. -/
theorem transaction_get_contract :
    (∀ (matcher : JDict → Bool) (limit : Nat) (arrivals : List (Nat × JDict)),
      (∀ p ∈ arrivals, matcher p.2 = true → limit < p.1) →
      transactionGet matcher (some limit) none arrivals
        = some (Except.error GetError.timeout))
    ∧ (∀ (matcher : JDict → Bool) (closedAt : Option Nat)
        (arrivals : List (Nat × JDict)),
        transactionGet matcher none closedAt arrivals
          ≠ some (Except.error GetError.timeout))
    ∧ (∀ (matcher : JDict → Bool) (timeout closedAt : Option Nat)
        (arrivals : List (Nat × JDict)),
        transactionGet matcher timeout closedAt arrivals = none
        ∨ (∃ m, transactionGet matcher timeout closedAt arrivals
            = some (Except.ok m))
        ∨ transactionGet matcher timeout closedAt arrivals
            = some (Except.error GetError.timeout)
        ∨ transactionGet matcher timeout closedAt arrivals
            = some (Except.error GetError.transportClosed))
    ∧ (∀ (admin_secret : String) (message jsep matcher : JDict)
        (authorize : Bool) (timeout closedAt : Option Nat)
        (arrivals : List (Nat × JDict)),
        (send_wrapper admin_secret message jsep matcher authorize timeout
            closedAt arrivals).outcome
          = transactionGet (function_matcher matcher) timeout closedAt arrivals)
    ∧ send_wrapper_default_timeout = some 15 := by
  refine ⟨?_, ?_, ?_, ?_, rfl⟩
  · intro matcher limit arrivals h
    unfold transactionGet
    cases hf : arrivals.find? (fun p => matcher p.2 && !closedBefore none p.1) with
    | none => rfl
    | some p =>
      have hp := List.find?_some hf
      have hmatch : matcher p.2 = true := by
        simp only [Bool.and_eq_true] at hp
        exact hp.1
      have hlt := h p (List.mem_of_find?_eq_some hf) hmatch
      have hw : withinOpt (some limit) p.1 = false := by
        simp [withinOpt]
        omega
      simp [hw]
  · intro matcher closedAt arrivals h
    unfold transactionGet at h
    split at h
    · rename_i p hf
      have hw : withinOpt none p.1 = true := rfl
      rw [hw] at h
      simp at h
    · split at h <;> simp_all
  · intro matcher timeout closedAt arrivals
    cases hres : transactionGet matcher timeout closedAt arrivals with
    | none => exact Or.inl rfl
    | some r =>
      cases r with
      | ok m => exact Or.inr (Or.inl ⟨m, rfl⟩)
      | error e =>
        cases e with
        | timeout => exact Or.inr (Or.inr (Or.inl rfl))
        | transportClosed => exact Or.inr (Or.inr (Or.inr rfl))
  · intro admin_secret message jsep matcher authorize timeout closedAt arrivals
    rfl

/-- Witness for claim C5: with a single pong arriving at time 20 against a
deadline of 15, the modelled `get` fails with Timeout. -/
theorem transaction_get_contract_witness :
    (∀ p ∈ [((20 : Nat), pongExample)],
      function_matcher pongPattern p.2 = true → 15 < p.1)
    ∧ transactionGet (function_matcher pongPattern) (some 15) none
        [(20, pongExample)] = some (Except.error GetError.timeout) :=
  ⟨by decide,
   transaction_get_contract.1 (function_matcher pongPattern) 15
     [(20, pongExample)] (by decide)⟩

/-- Claim C7: the structural subset test is a subset test, not equality:
it fails whenever some pattern key is absent from the message, and an
extra key of the message that the pattern does not mention never changes
the verdict. -/
theorem is_subset_subset_not_equality :
    (∀ (m p : JDict) (k : String) (pv : JValue),
      (k, pv) ∈ p → lookupField k m = none → is_subset m p = false)
    ∧ (∀ (m p : JDict) (k : String) (v : JValue),
      (∀ q ∈ p, q.1 ≠ k) →
      is_subset ((k, v) :: m) p = is_subset m p) := by
  constructor
  · intro m p k pv hmem hnone
    induction p with
    | nil => cases hmem
    | cons hd tl ih =>
      obtain ⟨k1, pv1⟩ := hd
      rcases List.mem_cons.mp hmem with heq | htl
      · obtain ⟨hk, hpv⟩ := Prod.mk.injEq .. ▸ heq
        simp only [is_subset, matchFields]
        subst hk
        rw [hnone]
        simp
      · have htlfalse := ih htl
        simp only [is_subset, matchFields] at htlfalse ⊢
        rw [htlfalse]
        simp
  · intro m p k v hkeys
    induction p with
    | nil => rfl
    | cons hd tl ih =>
      obtain ⟨k1, pv1⟩ := hd
      have hk1 : k1 ≠ k := hkeys (k1, pv1) (List.mem_cons_self _ _)
      have htl := ih fun q hq => hkeys q (List.mem_cons_of_mem _ hq)
      simp only [is_subset, matchFields] at htl ⊢
      have hlook : lookupField k1 ((k, v) :: m) = lookupField k1 m := by
        have hne : ¬((k == k1) = true) := by
          simp only [beq_iff_eq]
          exact fun hkk => hk1 hkk.symm
        simp only [lookupField, if_neg hne]
      rw [hlook, htl]

/-- Witness for claim C7: a pattern key absent from the message makes the
test fail, and an extra message key the pattern does not mention leaves the
verdict unchanged. -/
theorem is_subset_subset_not_equality_witness :
    is_subset [("a", JValue.num 1)] [("b", JValue.null)] = false
    ∧ is_subset [("extra", JValue.num 2), ("a", JValue.num 1)]
        [("a", JValue.null)]
      = is_subset [("a", JValue.num 1)] [("a", JValue.null)] :=
  ⟨is_subset_subset_not_equality.1 [("a", JValue.num 1)] [("b", JValue.null)]
      "b" JValue.null (List.mem_singleton.mpr rfl) rfl,
   is_subset_subset_not_equality.2 [("a", JValue.num 1)] [("a", JValue.null)]
      "extra" (JValue.num 2) (by decide)⟩

/-- Claim C8: the claim states that `ping` returns an inbound message
accepted by the pattern with janus pong. The get-time matcher of
`send_wrapper` also accepts the generic error shape, so when the inbound
stream delivers an error message first, `ping` returns it even though the
pong pattern rejects it. -/
theorem ping_returns_error_shape :
    (ping "s" none [(0, errExample)]).outcome = some (Except.ok errExample)
    ∧ is_subset errExample pongPattern = false :=
  ⟨rfl, rfl⟩

/-- Claim C8 as amended: `ping` hands exactly the message with janus ping
to the transport, adds no admin secret and leaves the message unchanged,
and every message it returns normally is accepted by the pattern with
janus pong or by the generic error pattern. -/
theorem ping_sends_plain_and_result_matches :
    ∀ (admin_secret : String) (closedAt : Option Nat)
      (arrivals : List (Nat × JDict)),
      (ping admin_secret closedAt arrivals).sent = pingMessage
      ∧ (ping admin_secret closedAt arrivals).messageAfter = pingMessage
      ∧ lookupField "admin_secret" (ping admin_secret closedAt arrivals).sent
          = none
      ∧ ∀ m, (ping admin_secret closedAt arrivals).outcome
            = some (Except.ok m) →
          (is_subset m pongPattern = true ∨ is_subset m error_pattern = true) := by
  intro admin_secret closedAt arrivals
  refine ⟨rfl, rfl, rfl, ?_⟩
  intro m h
  have hm : function_matcher pongPattern m = true :=
    transactionGet_ok_matches (function_matcher pongPattern)
      send_wrapper_default_timeout closedAt arrivals m h
  simpa [function_matcher] using hm

/-- Witness for the amended claim C8: a pong reply arriving at time 0 is
returned and is accepted by the pong pattern. -/
theorem ping_sends_plain_and_result_matches_witness :
    is_subset pongExample pongPattern = true
    ∨ is_subset pongExample error_pattern = true :=
  (ping_sends_plain_and_result_matches "s" none [(0, pongExample)]).2.2.2
    pongExample rfl

